import Mathlib

/-
Verification development for the Ganesha voice-chatbot backend.

Shallow embedding of the language-resolution and pipeline-orchestration code:
  backend/config.py        (Settings.SUPPORTED_LANGUAGES)
  backend/services/llm.py  (detect_language_fast, get_response, _clean_response,
                            _get_fallback_response)
  backend/services/asr.py  (_transliterate_if_needed, _enhance_language_detection,
                            transcribe_audio)
  backend/services/tts.py  (language_mapping, generate_speech language selection)
  backend/main.py          (voice_chat, text_chat)

Python strings are modelled as Lean String (code-point sequences via .data).
External collaborators (the Gemini HTTP call, the langdetect classifier, the
indic transliteration library, Whisper, gTTS) are modelled as explicit oracle
parameters; a raised exception from an oracle is Option.none.
-/

/-- Python str characters considered whitespace by str.strip for the inputs at
hand (ASCII whitespace; the script-range and marker characters the claims are
about are never whitespace in Python either). -/
def pySpace (c : Char) : Bool :=
  c == ' ' || c == '\t' || c == '\n' || c == '\r' || c == '\x0b' || c == '\x0c'

/-- Python str.strip(): drop whitespace from both ends. -/
def pyStrip (l : List Char) : List Char :=
  ((l.dropWhile pySpace).reverse.dropWhile pySpace).reverse

/-- Python str.lower() modelled per character. Char.toLower lowercases the
ASCII range; every non-ASCII character in the script blocks this code
inspects is caseless in Python as well, so it is fixed by both. -/
def pyLower (l : List Char) : List Char :=
  l.map Char.toLower

/-- Does the character list start with the given needle (character by
character)? Used for Python startswith-style checks. -/
def listStarts : List Char → List Char → Bool
  | [], _ => true
  | _ :: _, [] => false
  | a :: as, b :: bs => a == b && listStarts as bs

/-- Python substring containment: needle occurs contiguously in haystack
(the semantics of the `in` operator on str). -/
def subList (needle : List Char) : List Char → Bool
  | [] => listStarts needle []
  | c :: cs => listStarts needle (c :: cs) || subList needle cs

/-- Membership of a code point in an inclusive range, as in the source
comparisons `ord(char) >= lo and ord(char) <= hi`. -/
def charBetween (lo hi : Nat) (c : Char) : Bool :=
  decide (lo ≤ c.toNat) && decide (c.toNat ≤ hi)

/-- Association-list lookup by string key, modelling Python dict indexing and
the `in` operator on dict keys (insertion order preserved, as in the source
literals). -/
def lookupStr (k : String) : List (String × String) → Option String
  | [] => none
  | (a, b) :: rest => if a = k then some b else lookupStr k rest

/-- config.py Settings.SUPPORTED_LANGUAGES. -/
def SUPPORTED_LANGUAGES : List (String × String) :=
  [("hi", "Hindi"), ("en", "English"), ("ta", "Tamil"), ("te", "Telugu"),
   ("kn", "Kannada"), ("ml", "Malayalam"), ("bn", "Bengali"), ("mr", "Marathi"),
   ("gu", "Gujarati"), ("pa", "Punjabi"), ("or", "Odia"), ("as", "Assamese"),
   ("ur", "Urdu")]

/-- `code in settings.SUPPORTED_LANGUAGES` (dict key membership). -/
def supportedLang (code : String) : Bool :=
  SUPPORTED_LANGUAGES.any (fun p => p.1 == code)

/-- llm.py detect_language_fast: Hindi marker words checked on the lowered,
stripped text. -/
def HINDI_MARKERS : List String :=
  ["है", "हैं", "का", "की", "को", "में", "से", "गणेश", "भगवान"]

/-- llm.py detect_language_fast: Marathi marker words. -/
def MARATHI_MARKERS : List String :=
  ["आहे", "आहेत", "चा", "ची", "च्या", "गणपती"]

/-- `word in text` for one marker word. -/
def containsWord (text : List Char) (w : String) : Bool :=
  subList w.data text

/-- The branch cascade of detect_language_fast on the already lowered and
stripped text (the local variable `text` of the source). -/
def detectFromProcessed (text : List Char) : String :=
  if text.any (charBetween 0x0900 0x097F) then
    if HINDI_MARKERS.any (containsWord text) then "hi"
    else if MARATHI_MARKERS.any (containsWord text) then "mr"
    else "hi"
  else if text.any (charBetween 0x0B80 0x0BFF) then "ta"
  else if text.any (charBetween 0x0C00 0x0C7F) then "te"
  else if text.any (charBetween 0x0C80 0x0CFF) then "kn"
  else if text.any (charBetween 0x0D00 0x0D7F) then "ml"
  else if text.any (charBetween 0x0980 0x09FF) then "bn"
  else "en"

/-- llm.py GaneshaLLMService.detect_language_fast:
`text = text.lower().strip()` followed by the script/keyword cascade. -/
def detect_language_fast (text0 : String) : String :=
  detectFromProcessed (pyStrip (pyLower text0.data))

/-- llm.py _get_fallback_response: the fallback table (eight entries). -/
def FALLBACKS : List (String × String) :=
  [("en", "Om Gam Ganapataye Namaha! I am here to help you, dear devotee. Please share what\x27s on your mind, and I shall guide you with wisdom and compassion."),
   ("hi", "ॐ गं गणपतये नमः! मैं यहाँ आपकी सहायता के लिए हूँ, प्रिय भक्त। कृपया बताएं कि आपके मन में क्या है, और मैं आपको ज्ञान और करुणा से मार्गदर्शन दूंगा।"),
   ("ta", "ஓம் கம் கணபதயே நமக! நான் உங்களுக்கு உதவ இங்கே இருக்கிறேன், அன்பு பக்தரே। உங்கள் மனதில் என்ன இருக்கிறது என்று பகிர்ந்து கொள்ளுங்கள், நான் ஞானம் மற்றும் கருணையுடன் உங்களுக்கு வழிகாட்டுவேன்।"),
   ("te", "ఓం గం గణపతయే నమః! నేను మీకు సహాయం చేయడానికి ఇక్కడ ఉన్నాను, ప్రియమైన భక్తుడా। మీ మనస్సులో ఏమి ఉందో చెప్పండి, నేను జ్ఞానం మరియు కరుణతో మీకు మార్గదర్శనం చేస్తాను।"),
   ("kn", "ಓಂ ಗಂ ಗಣಪತಯೇ ನಮಃ! ನಾನು ನಿಮಗೆ ಸಹಾಯ ಮಾಡಲು ಇಲ್ಲಿದ್ದೇನೆ, ಪ್ರಿಯ ಭಕ್ತರೇ। ನಿಮ್ಮ ಮನಸ್ಸಿನಲ್ಲಿ ಏನಿದೆ ಎಂದು ಹಂಚಿಕೊಳ್ಳಿ, ನಾನು ಜ್ಞಾನ ಮತ್ತು ಕರುಣೆಯಿಂದ ನಿಮಗೆ ಮಾರ್ಗದರ್ಶನ ನೀಡುತ್ತೇನೆ।"),
   ("ml", "ഓം ഗം ഗണപതയേ നമഃ! നിങ്ങളെ സഹായിക്കാൻ ഞാൻ ഇവിടെയുണ്ട്, പ്രിയ ഭക്തനേ। നിങ്ങളുടെ മനസ്സിൽ എന്താണുള്ളതെന്ന് പങ്കിടുക, ഞാൻ ജ്ഞാനവും കരുണയും കൊണ്ട് നിങ്ങളെ നയിക്കും।"),
   ("bn", "ওম গং গণপতয়ে নমঃ! আমি এখানে আপনাকে সাহায্য করতে এসেছি, প্রিয় ভক্ত। আপনার মনে কী আছে তা শেয়ার করুন, আমি জ্ঞান ও করুণা দিয়ে আপনাকে পথ দেখাবো।"),
   ("mr", "ॐ गं गणपतये नमः! मी तुमची मदत करण्यासाठी येथे आहे, प्रिय भक्ता। तुमच्या मनात काय आहे ते सांगा, मी ज्ञान आणि करुणेने तुम्हाला मार्गदर्शन करीन।")]

/-- llm.py GaneshaLLMService._get_fallback_response:
`fallbacks.get(language, fallbacks["en"])`. -/
def getFallbackResponse (language : String) : String :=
  match lookupStr language FALLBACKS with
  | some s => s
  | none => (lookupStr "en" FALLBACKS).getD ""

/-- llm.py _clean_response: alternatives of the anchored prefix-stripping
regular expression, tried in order. -/
def CLEAN_TAGS : List String :=
  ["Response:", "Answer:", "Text:", "Ganesha:", "गणेश जी:", "விநாயகர்:",
   "గణేష్:", "ಗಣೇಶ:", "ഗണപതി:", "গণেশ:", "गणेश:"]

/-- Remove the first matching tag at the start of the text (the anchored
re.sub in _clean_response removes at most one such prefix). -/
def dropTag (l : List Char) : List Char :=
  match CLEAN_TAGS.find? (fun p => listStarts p.data l) with
  | some p => l.drop p.data.length
  | none => l

/-- Collapse each maximal run of whitespace into a single space:
`re.sub(r"\s+", " ", text)`. The Bool argument records whether the previous
character was whitespace. -/
def collapseWsAux : Bool → List Char → List Char
  | _, [] => []
  | prevSpace, c :: cs =>
    if pySpace c then
      if prevSpace then collapseWsAux true cs
      else ' ' :: collapseWsAux true cs
    else c :: collapseWsAux false cs

def collapseWs (l : List Char) : List Char :=
  collapseWsAux false l

/-- Sentence-final characters accepted by _clean_response. -/
def ENDINGS : List Char := ['.', '!', '?', '।', '॥']

/-- llm.py GaneshaLLMService._clean_response (the language argument is unused
in the source as well). -/
def cleanResponse (text : String) (_language : String) : String :=
  let t1 := dropTag (pyStrip text.data)
  let t2 := pyStrip (collapseWs t1)
  if !t2.isEmpty && !(ENDINGS.contains (t2.getLastD ' ')) then ⟨t2 ++ ['.']⟩
  else ⟨t2⟩

/-- Outcome of the Gemini HTTP POST in get_response: the request raised
(transport error or timeout), or returned a status code together with the
extracted candidate text (none when candidates are missing or malformed). -/
inductive GeminiResult
  | raised
  | response (status : Nat) (candidateText : Option String)
deriving DecidableEq

/-- llm.py GaneshaLLMService.get_response. The prompt built from the user
input does not influence the returned value, which depends only on the API
key check and the modelled HTTP outcome. -/
def get_response (gemini : GeminiResult) (apiKey : String)
    (userInput : String) (language : String) : String :=
  if apiKey = "" then getFallbackResponse language
  else
    match gemini with
    | GeminiResult.raised => getFallbackResponse language
    | GeminiResult.response status cand =>
      if status = 200 then
        match cand with
        | some t => cleanResponse t language
        | none => getFallbackResponse language
      else getFallbackResponse language

/-- asr.py _transliterate_if_needed: the scripts tried, in order. -/
def TRANSLIT_SCRIPTS : List String :=
  ["devanagari", "bengali", "tamil", "telugu", "kannada", "malayalam",
   "gujarati", "oriya", "punjabi"]

/-- Number of non-ASCII characters: `sum(ord(c) > 127 for c in native)`. -/
def nonAsciiCount (s : String) : Nat :=
  (s.data.filter (fun c => decide (127 < c.toNat))).length

/-- One iteration of the _transliterate_if_needed loop. The accumulator is
none once a conversion has raised (the exception aborts the whole loop);
otherwise it carries (best_native, max_non_ascii). -/
def translitStep (conv : String → Option String)
    (acc : Option (String × Nat)) (script : String) : Option (String × Nat) :=
  match acc with
  | none => none
  | some (best, maxNa) =>
    match conv script with
    | none => none
    | some native =>
      if maxNa < nonAsciiCount native then some (native, nonAsciiCount native)
      else some (best, maxNa)

/-- The loop of _transliterate_if_needed over all scripts, starting from
(text, 0). -/
def translitScan (conv : String → Option String) (text : String) :
    Option (String × Nat) :=
  TRANSLIT_SCRIPTS.foldl (translitStep conv) (some (text, 0))

/-- asr.py ASRService._transliterate_if_needed. The float threshold
`max_non_ascii > 0.2 * len(best_native)` is modelled exactly over naturals as
`best.length < 5 * maxNa`. conv is the indic_transliteration oracle
(none models a raised exception, handled by the blanket except). -/
def transliterateIfNeeded (conv : String → Option String) (text : String) :
    String :=
  match translitScan conv text with
  | none => text
  | some (best, maxNa) => if best.length < 5 * maxNa then best else text

/-- Python max(items, key=snd) over a non-empty association list: the first
entry with the maximal value (later entries replace only on strictly greater
value). -/
def pyDictMax (p : String × ℚ) (ps : List (String × ℚ)) : String :=
  (ps.foldl (fun a y => if a.2 < y.2 then y else a) p).1

/-- asr.py _enhance_language_detection, langdetect section: a truthy
langdetect_probs dict short-circuits to its argmax when supported; otherwise
the seeded langdetect detect() runs on text_for_detection (none models
LangDetectException or any other raise, swallowed by the inner except). -/
def langdetectStage (detect : String → Option String)
    (textForDetection : String)
    (langdetectProbs : Option (List (String × ℚ))) : String :=
  match langdetectProbs with
  | some (p :: ps) =>
    if supportedLang (pyDictMax p ps) then pyDictMax p ps else "en"
  | _ =>
    match detect textForDetection with
    | some l => if supportedLang l then l else "en"
    | none => "en"

/-- asr.py ASRService._enhance_language_detection. text_for_detection is the
transliteration of the text when it differs from the text and the text
otherwise, which is the transliteration result in either case. A truthy
whisper_probs dict is preferred; otherwise the whisper-reported language is
returned when supported, before any text analysis. -/
def enhanceLanguageDetection (conv : String → Option String)
    (detect : String → Option String) (text : String) (whisperLang : String)
    (whisperProbs langdetectProbs : Option (List (String × ℚ))) : String :=
  match whisperProbs with
  | some (p :: ps) =>
    if supportedLang (pyDictMax p ps) then pyDictMax p ps
    else langdetectStage detect (transliterateIfNeeded conv text) langdetectProbs
  | _ =>
    if supportedLang whisperLang then whisperLang
    else langdetectStage detect (transliterateIfNeeded conv text) langdetectProbs

/-- tts.py TTSService.language_mapping. -/
def language_mapping : List (String × String) :=
  [("en", "en"), ("hi", "hi"), ("ta", "ta"), ("te", "te"), ("kn", "kn"),
   ("ml", "ml"), ("bn", "bn"), ("mr", "mr"), ("gu", "gu"), ("pa", "pa"),
   ("ur", "ur")]

/-- tts.py generate_speech language handling: `if language not in
self.language_mapping: language = "en"`. -/
def ttsResolvedCode (language : String) : String :=
  if (lookupStr language language_mapping).isSome then language else "en"

/-- tts.py generate_speech voice selection: `tts_lang =
self.language_mapping[language]` after the normalization above (the getD
default is unreachable because "en" is always mapped). -/
def ttsLang (language : String) : String :=
  (lookupStr (ttsResolvedCode language) language_mapping).getD "en"

/-- main.py text_chat language resolution:
`detected_language = language or llm_service.detect_language_fast(text)`
(an absent or empty form field is falsy). -/
def textChatResolve (language : Option String) (text : String) : String :=
  match language with
  | some l => if l = "" then detect_language_fast text else l
  | none => detect_language_fast text

/-- The arguments of one generate_speech invocation. -/
structure TtsCall where
  text : String
  language : String
deriving DecidableEq

/-- The successful JSON body of the text-chat endpoint (fields relevant to
the claims). -/
structure TextChatOk where
  userMessage : String
  response : String
  responseLanguage : String
  audioUrl : Option String
deriving DecidableEq

/-- The successful JSON body of the voice-chat endpoint (fields relevant to
the claims). -/
structure VoiceChatOk where
  transcription : String
  detectedLanguage : String
  response : String
  responseLanguage : String
  audioUrl : Option String
deriving DecidableEq

/-- asr.py ASRService.transcribe_audio from the point where Whisper has
produced (joined segment text, reported language); whisperOut is none when
the model call itself raised. An empty stripped transcript raises
ValueError, re-raised as a plain Exception, hence none. -/
def transcribeAudio (conv detect : String → Option String)
    (whisperOut : Option (String × String)) : Option (String × String) :=
  match whisperOut with
  | none => none
  | some (raw, primaryLanguage) =>
    if pyStrip raw.data = [] then none
    else some (⟨pyStrip raw.data⟩,
               enhanceLanguageDetection conv detect raw primaryLanguage none none)

/-- main.py voice_chat from transcription onward. Returns the generate_speech
invocation made (none if synthesis is never reached) and the HTTP outcome:
ok body, or error status. A failed transcription raises a plain Exception,
caught by `except Exception` and rethrown as HTTPException(500). The
generate_speech call here is a plain synchronous call whose Bool result
(ttsOk) selects between the audio and the text-only response body. -/
def voiceChat (conv detect : String → Option String) (gemini : GeminiResult)
    (apiKey : String) (ttsOk : Bool) (whisperOut : Option (String × String))
    (sessionId : String) : Option TtsCall × Except Nat VoiceChatOk :=
  match transcribeAudio conv detect whisperOut with
  | none => (none, Except.error 500)
  | some (userText, detectedLanguage) =>
    if userText = "" then (none, Except.error 400)
    else
      (some ⟨get_response gemini apiKey userText detectedLanguage, detectedLanguage⟩,
       Except.ok ⟨userText, detectedLanguage,
                  get_response gemini apiKey userText detectedLanguage,
                  detectedLanguage,
                  if ttsOk then some ("/outputs/" ++ sessionId ++ "_response.wav")
                  else none⟩)

/-- main.py text_chat. The empty-text HTTPException(400) is raised inside the
try block whose only handler is `except Exception`, which rethrows it as
HTTPException(500). On the non-empty path generate_speech is invoked (its
Bool return value is produced), but the endpoint applies `await` to that
Bool; awaiting a non-awaitable raises TypeError, which the same handler
converts to HTTPException(500). The endpoint therefore never reaches its
response dict. -/
def textChat (conv detect : String → Option String) (gemini : GeminiResult)
    (apiKey : String) (_ttsOk : Bool) (text : String)
    (language : Option String) : Option TtsCall × Except Nat TextChatOk :=
  if pyStrip text.data = [] then (none, Except.error 500)
  else
    (some ⟨get_response gemini apiKey text (textChatResolve language text),
           textChatResolve language text⟩,
     Except.error 500)

/-- A Gemini outcome counts as a generation failure exactly when the request
raised, the status is not 200, or no candidate text could be extracted. -/
def geminiFailed : GeminiResult → Bool
  | GeminiResult.raised => true
  | GeminiResult.response status cand => status ≠ 200 || cand.isNone

/-- The six script tests of detect_language_fast, combined. -/
def anyScriptChar (l : List Char) : Bool :=
  l.any (charBetween 0x0900 0x097F) || l.any (charBetween 0x0B80 0x0BFF) ||
  l.any (charBetween 0x0C00 0x0C7F) || l.any (charBetween 0x0C80 0x0CFF) ||
  l.any (charBetween 0x0D00 0x0D7F) || l.any (charBetween 0x0980 0x09FF)

/-- Characters of the script blocks under discussion are fixed by the
lowercase map (they lie outside the ASCII uppercase range). -/
lemma toLower_fix_of_ge (c : Char) (h : 256 ≤ c.toNat) : Char.toLower c = c := by
  unfold Char.toLower
  rw [if_neg]
  omega

lemma pySpace_eq_false_of_ge (c : Char) (h : 256 ≤ c.toNat) :
    pySpace c = false := by
  simp only [pySpace, Bool.or_eq_false_iff, beq_eq_false_iff_ne, ne_eq]
  refine ⟨⟨⟨⟨⟨?_, ?_⟩, ?_⟩, ?_⟩, ?_⟩, ?_⟩ <;>
    · rintro rfl
      exact absurd h (by decide)

lemma mem_dropWhile_of_mem {c : Char} {l : List Char} (p : Char → Bool)
    (hm : c ∈ l) (hp : p c = false) : c ∈ l.dropWhile p := by
  induction l with
  | nil => cases hm
  | cons a t ih =>
    rw [List.dropWhile_cons]
    rcases List.mem_cons.mp hm with rfl | ht
    · rw [hp]
      simp
    · by_cases ha : p a = true
      · rw [if_pos ha]
        exact ih ht
      · rw [if_neg ha]
        exact List.mem_cons_of_mem _ ht

lemma mem_pyStrip_of_mem {c : Char} {l : List Char}
    (hm : c ∈ l) (hp : pySpace c = false) : c ∈ pyStrip l := by
  unfold pyStrip
  rw [List.mem_reverse]
  exact mem_dropWhile_of_mem _ (List.mem_reverse.mpr
    (mem_dropWhile_of_mem _ hm hp)) hp

lemma mem_of_mem_pyStrip {c : Char} {l : List Char}
    (hm : c ∈ pyStrip l) : c ∈ l := by
  unfold pyStrip at hm
  rw [List.mem_reverse] at hm
  have h1 : c ∈ (List.dropWhile pySpace l).reverse :=
    (List.dropWhile_sublist _).mem hm
  rw [List.mem_reverse] at h1
  exact (List.dropWhile_sublist _).mem h1

/-- Every character of the lowered text comes from a character of the
original text via Char.toLower. -/
lemma mem_pyLower {c : Char} {l : List Char} (hm : c ∈ pyLower l) :
    ∃ c0 ∈ l, Char.toLower c0 = c := by
  unfold pyLower at hm
  exact List.mem_map.mp hm

/-- Every return point of the detection cascade is one of eight literals. -/
lemma detectFromProcessed_mem (text : List Char) :
    detectFromProcessed text ∈
      (["hi", "mr", "ta", "te", "kn", "ml", "bn", "en"] : List String) := by
  unfold detectFromProcessed
  split
  · split
    · simp
    · split <;> simp
  · split
    · simp
    · split
      · simp
      · split
        · simp
        · split
          · simp
          · split <;> simp

/-- Every return point of detect_language_fast is one of eight literals. -/
lemma detect_fast_mem (text : String) :
    detect_language_fast text ∈
      (["hi", "mr", "ta", "te", "kn", "ml", "bn", "en"] : List String) :=
  detectFromProcessed_mem _

lemma detect_fast_supported (text : String) :
    supportedLang (detect_language_fast text) = true := by
  have h := detect_fast_mem text
  simp only [List.mem_cons, List.not_mem_nil, or_false] at h
  rcases h with h | h | h | h | h | h | h | h <;> rw [h] <;> decide

lemma langdetectStage_supported (detect : String → Option String)
    (textForDetection : String)
    (langdetectProbs : Option (List (String × ℚ))) :
    supportedLang (langdetectStage detect textForDetection langdetectProbs)
      = true := by
  unfold langdetectStage
  split
  · split
    · assumption
    · decide
  · split
    · split
      · assumption
      · decide
    · decide

lemma enhance_supported (conv detect : String → Option String)
    (text whisperLang : String)
    (whisperProbs langdetectProbs : Option (List (String × ℚ))) :
    supportedLang (enhanceLanguageDetection conv detect text whisperLang
      whisperProbs langdetectProbs) = true := by
  unfold enhanceLanguageDetection
  split
  · split
    · assumption
    · exact langdetectStage_supported _ _ _
  · split
    · assumption
    · exact langdetectStage_supported _ _ _

/-- Once a conversion has raised, the rest of the loop is skipped. -/
lemma translit_foldl_none (conv : String → Option String) (l : List String) :
    l.foldl (translitStep conv) none = none := by
  induction l with
  | nil => rfl
  | cons a t ih => simpa [translitStep] using ih

/-- If some attempted conversion raises, the whole scan raises. -/
lemma translit_foldl_raise (conv : String → Option String) (l : List String) :
    ∀ b m, (∃ s ∈ l, conv s = none) →
      l.foldl (translitStep conv) (some (b, m)) = none := by
  induction l with
  | nil =>
    intro b m h
    obtain ⟨s, hs, _⟩ := h
    cases hs
  | cons a t ih =>
    intro b m h
    rw [List.foldl_cons]
    obtain ⟨s, hs, hc⟩ := h
    rcases List.mem_cons.mp hs with rfl | ht
    · simp only [translitStep, hc]
      exact translit_foldl_none conv t
    · cases hca : conv a with
      | none =>
        simp only [translitStep, hca]
        exact translit_foldl_none conv t
      | some native =>
        simp only [translitStep, hca]
        split
        · exact ih _ _ ⟨s, ht, hc⟩
        · exact ih _ _ ⟨s, ht, hc⟩

/-- Loop invariant of the _transliterate_if_needed scan when no conversion
raises: the accumulator only grows, ends at either the initial pair or at a
conversion output whose non-ASCII count it records, and dominates the
non-ASCII count of every conversion attempted. -/
lemma translit_foldl_inv (conv : String → Option String) (l : List String) :
    ∀ b0 m0, (∀ s ∈ l, conv s ≠ none) →
      ∃ b m, l.foldl (translitStep conv) (some (b0, m0)) = some (b, m) ∧
        m0 ≤ m ∧
        ((b = b0 ∧ m = m0) ∨
          ∃ s ∈ l, conv s = some b ∧ nonAsciiCount b = m) ∧
        (∀ s ∈ l, ∀ v, conv s = some v → nonAsciiCount v ≤ m) := by
  induction l with
  | nil =>
    intro b0 m0 _
    exact ⟨b0, m0, rfl, le_refl _, Or.inl ⟨rfl, rfl⟩, by intro s hs; cases hs⟩
  | cons a t ih =>
    intro b0 m0 h
    have hca : conv a ≠ none := h a (List.mem_cons_self a t)
    cases hcav : conv a with
    | none => exact absurd hcav hca
    | some native =>
      have ht : ∀ s ∈ t, conv s ≠ none := fun s hs => h s (List.mem_cons_of_mem a hs)
      rw [List.foldl_cons]
      simp only [translitStep, hcav]
      by_cases hlt : m0 < nonAsciiCount native
      · rw [if_pos hlt]
        obtain ⟨b, m, heq, hle, hor, hmax⟩ := ih native (nonAsciiCount native) ht
        refine ⟨b, m, heq, le_of_lt (lt_of_lt_of_le hlt hle), ?_, ?_⟩
        · rcases hor with ⟨rfl, rfl⟩ | ⟨s, hs, hc, hn⟩
          · exact Or.inr ⟨a, List.mem_cons_self a t, hcav, rfl⟩
          · exact Or.inr ⟨s, List.mem_cons_of_mem a hs, hc, hn⟩
        · intro s hs v hcv
          rcases List.mem_cons.mp hs with rfl | hst
          · rw [hcav] at hcv
            cases hcv
            exact hle
          · exact hmax s hst v hcv
      · rw [if_neg hlt]
        obtain ⟨b, m, heq, hle, hor, hmax⟩ := ih b0 m0 ht
        refine ⟨b, m, heq, hle, ?_, ?_⟩
        · rcases hor with ⟨rfl, rfl⟩ | ⟨s, hs, hc, hn⟩
          · exact Or.inl ⟨rfl, rfl⟩
          · exact Or.inr ⟨s, List.mem_cons_of_mem a hs, hc, hn⟩
        · intro s hs v hcv
          rcases List.mem_cons.mp hs with rfl | hst
          · rw [hcav] at hcv
            cases hcv
            exact le_trans (Nat.le_of_not_lt hlt) hle
          · exact hmax s hst v hcv

/-- Claim C1: for every input text (and, where applicable, every optional
hint), each language-resolution function — detect_language_fast in llm.py and
_enhance_language_detection in asr.py — returns a code that is a key of
settings.SUPPORTED_LANGUAGES, never raises (both are total functions of their
inputs and oracles), and never returns any other value. -/
theorem c1_resolution_closure :
    (∀ text : String, supportedLang (detect_language_fast text) = true) ∧
    (∀ (conv detect : String → Option String) (text whisperLang : String)
       (whisperProbs langdetectProbs : Option (List (String × ℚ))),
      supportedLang (enhanceLanguageDetection conv detect text whisperLang
        whisperProbs langdetectProbs) = true) :=
  ⟨detect_fast_supported,
   fun conv detect text whisperLang whisperProbs langdetectProbs =>
     enhance_supported conv detect text whisperLang whisperProbs langdetectProbs⟩

/-- Claim C6: _transliterate_if_needed returns, among the attempted
native-script conversions of the input, one with the highest non-ASCII
character count, provided that count exceeds 20 percent of that conversion
length; otherwise it returns the original text unchanged, and whenever the
underlying conversion raises it also returns the original text unchanged (as
a total Lean function it never raises). Both directions are stated: a
non-original result is an attempted above-threshold conversion of maximal
count, and conversely for the scanned pair (best, maxNa) the function
returns best whenever the threshold passes (best then being an attempted
conversion of maximal count) and the original text whenever it does not. -/
theorem c6_transliteration_contract (conv : String → Option String)
    (text : String) :
    ((∃ s ∈ TRANSLIT_SCRIPTS, conv s = none) →
      transliterateIfNeeded conv text = text) ∧
    ((∀ s ∈ TRANSLIT_SCRIPTS, conv s ≠ none) →
      (transliterateIfNeeded conv text = text ∨
        ∃ s ∈ TRANSLIT_SCRIPTS,
          conv s = some (transliterateIfNeeded conv text)) ∧
      (transliterateIfNeeded conv text ≠ text →
        (∀ s ∈ TRANSLIT_SCRIPTS, ∀ v, conv s = some v →
          nonAsciiCount v ≤ nonAsciiCount (transliterateIfNeeded conv text)) ∧
        (transliterateIfNeeded conv text).length <
          5 * nonAsciiCount (transliterateIfNeeded conv text)) ∧
      (∃ b m, translitScan conv text = some (b, m) ∧
        (∀ s ∈ TRANSLIT_SCRIPTS, ∀ v, conv s = some v →
          nonAsciiCount v ≤ m) ∧
        (b.length < 5 * m →
          transliterateIfNeeded conv text = b ∧
          (∃ s ∈ TRANSLIT_SCRIPTS, conv s = some b) ∧
          nonAsciiCount b = m) ∧
        (¬ b.length < 5 * m →
          transliterateIfNeeded conv text = text))) := by
  constructor
  · intro h
    unfold transliterateIfNeeded translitScan
    rw [translit_foldl_raise conv TRANSLIT_SCRIPTS text 0 h]
  · intro h
    obtain ⟨b, m, heq, _hle, hor, hmax⟩ :=
      translit_foldl_inv conv TRANSLIT_SCRIPTS text 0 h
    have hscan : translitScan conv text = some (b, m) := heq
    have hr : transliterateIfNeeded conv text =
        if b.length < 5 * m then b else text := by
      unfold transliterateIfNeeded translitScan
      rw [heq]
    by_cases hth : b.length < 5 * m
    · have hrb : transliterateIfNeeded conv text = b := by
        rw [hr, if_pos hth]
      rcases hor with ⟨_, hm⟩ | ⟨s, hs, hc, hn⟩
      · rw [hm] at hth
        exact absurd hth (by omega)
      · refine ⟨Or.inr ⟨s, hs, by rw [hrb]; exact hc⟩, ?_, ?_⟩
        · intro _
          rw [hrb, hn]
          exact ⟨hmax, hth⟩
        · exact ⟨b, m, hscan, hmax,
            fun _ => ⟨hrb, ⟨s, hs, hc⟩, hn⟩,
            fun hc2 => absurd hth hc2⟩
    · have hrt : transliterateIfNeeded conv text = text := by
        rw [hr, if_neg hth]
      exact ⟨Or.inl hrt, fun hne => absurd hrt hne,
        b, m, hscan, hmax, fun hc2 => absurd hc2 hth, fun _ => hrt⟩

/-- Witness for C6: a conversion oracle that raises leaves the text
unchanged, and an oracle whose conversions clear the 20 percent threshold
has its best conversion actually returned. -/
theorem c6_witness :
    transliterateIfNeeded (fun _ => none) "hello" = "hello" ∧
    transliterateIfNeeded (fun _ => some "गणेश") "ganesha" = "गणेश" := by
  refine ⟨(c6_transliteration_contract (fun _ => none) "hello").1
    ⟨"devanagari", by decide, rfl⟩, ?_⟩
  obtain ⟨b, m, heq, -, hpos, -⟩ :=
    ((c6_transliteration_contract (fun _ => some "गणेश") "ganesha").2
      (fun s _ => Option.some_ne_none _)).2.2
  have hv : translitScan (fun _ => some "गणेश") "ganesha" =
      some ("गणेश", 4) := by decide
  rw [hv] at heq
  injection heq with h1
  injection h1 with hb hm
  subst hb
  subst hm
  exact (hpos (by decide)).1

/-- Claim C9: two calls of detect_language_fast on equal text return equal
codes, and two calls of the ASR language-resolution path with equal text and
equal recognizer-reported hint return equal codes; the statistical detector
is the fixed function obtained after DetectorFactory.seed = 0, modelled as
the detect oracle held constant between the calls. -/
theorem c9_determinism (conv detect : String → Option String)
    (t1 t2 whisperLang1 whisperLang2 : String)
    (ht : t1 = t2) (hw : whisperLang1 = whisperLang2) :
    detect_language_fast t1 = detect_language_fast t2 ∧
    enhanceLanguageDetection conv detect t1 whisperLang1 none none =
      enhanceLanguageDetection conv detect t2 whisperLang2 none none := by
  subst ht
  subst hw
  exact ⟨rfl, rfl⟩

/-- Witness for C9 at concrete equal inputs. -/
theorem c9_witness :
    detect_language_fast "नमस्ते" = detect_language_fast "नमस्ते" ∧
    enhanceLanguageDetection (fun _ => none) (fun _ => none) "नमस्ते" "hi"
        none none =
      enhanceLanguageDetection (fun _ => none) (fun _ => none) "नमस्ते" "hi"
        none none :=
  c9_determinism (fun _ => none) (fun _ => none) "नमस्ते" "नमस्ते" "hi" "hi"
    rfl rfl

/-- Counterexample to claim C2 at an explicit input: the text "गणेश" lies
entirely in the Devanagari block (for which detect_language_fast resolves
"hi"), yet with the contradicting supported hint "ta" both the text-endpoint
resolution and the audio-path resolution return the hint "ta", not "hi" —
no script check precedes the hint. -/
theorem c2_counterexample :
    "गणेश".data.all (charBetween 0x0900 0x097F) = true ∧
    detect_language_fast "गणेश" = "hi" ∧
    supportedLang "ta" = true ∧
    textChatResolve (some "ta") "गणेश" = "ta" ∧
    enhanceLanguageDetection (fun _ => none) (fun _ => none) "गणेश" "ta"
      none none = "ta" := by
  refine ⟨by decide, by decide, by decide, rfl, rfl⟩

/-- Claim C2 amended: the hint beats the script. In the text endpoint a
non-empty caller-supplied language form field is used verbatim with no script
check, and detect_language_fast runs only when the hint is absent or empty;
on the audio path a Whisper-reported language that is a supported code is
returned before any script or text analysis. -/
theorem c2_hint_over_script :
    (∀ (text hint : String), hint ≠ "" →
      textChatResolve (some hint) text = hint) ∧
    (∀ text : String, textChatResolve none text = detect_language_fast text ∧
      textChatResolve (some "") text = detect_language_fast text) ∧
    (∀ (conv detect : String → Option String) (text whisperLang : String)
       (langdetectProbs : Option (List (String × ℚ))),
      supportedLang whisperLang = true →
      enhanceLanguageDetection conv detect text whisperLang none
        langdetectProbs = whisperLang) := by
  refine ⟨?_, ?_, ?_⟩
  · intro text hint h
    show (if hint = "" then detect_language_fast text else hint) = hint
    rw [if_neg h]
  · intro text
    exact ⟨rfl, rfl⟩
  · intro conv detect text whisperLang langdetectProbs h
    unfold enhanceLanguageDetection
    rw [h]
    rfl

/-- Witness for the amended C2 at concrete inputs. -/
theorem c2_witness :
    textChatResolve (some "ta") "नमस्ते" = "ta" ∧
    enhanceLanguageDetection (fun _ => none) (fun _ => some "hi") "hello" "kn"
      none none = "kn" :=
  ⟨c2_hint_over_script.1 "नमस्ते" "ta" (by decide),
   c2_hint_over_script.2.2 (fun _ => none) (fun _ => some "hi") "hello" "kn"
     none (by decide)⟩

/-- transcribe_audio returns a stripped, provably non-empty transcript. -/
lemma transcribe_text_ne_empty (conv detect : String → Option String)
    (whisperOut : Option (String × String)) (userText detectedLanguage : String)
    (h : transcribeAudio conv detect whisperOut = some (userText, detectedLanguage)) :
    userText ≠ "" := by
  unfold transcribeAudio at h
  cases whisperOut with
  | none => cases h
  | some p =>
    obtain ⟨raw, primaryLanguage⟩ := p
    dsimp only at h
    by_cases he : pyStrip raw.data = []
    · rw [if_pos he] at h
      cases h
    · rw [if_neg he] at h
      injection h with h1
      injection h1 with h2 _
      intro hc
      apply he
      have := congrArg String.data (h2.trans hc)
      simpa using this

/-- Counterexample to claim C3 at an explicit input: in the text endpoint the
Devanagari input resolves to "hi", the generated response is entirely in the
Tamil script (re-resolving it would give "ta"), yet generate_speech is
invoked with "hi"; the voice endpoint behaves the same on the corresponding
audio-path input. -/
theorem c3_counterexample :
    (textChat (fun _ => none) (fun _ => none)
        (GeminiResult.response 200 (some "வணக்கம்")) "key" true "नमस्ते"
        none).1 = some ⟨"வணக்கம்.", "hi"⟩ ∧
    (voiceChat (fun _ => none) (fun _ => none)
        (GeminiResult.response 200 (some "வணக்கம்")) "key" true
        (some ("नमस्ते", "hi")) "sid").1 = some ⟨"வணக்கம்.", "hi"⟩ ∧
    detect_language_fast "வணக்கம்." = "ta" ∧
    ("hi" : String) ≠ "ta" := by
  refine ⟨by decide, by decide, by decide, by decide⟩

/-- Claim C3 amended: the language passed to generate_speech is the input
utterance resolution, carried over unchanged — in both endpoints the
synthesis call receives exactly the generated response text together with
the language resolved from the input; no second resolution of the response
text occurs. -/
theorem c3_language_carryover :
    (∀ (conv detect : String → Option String) (gemini : GeminiResult)
       (apiKey : String) (ttsOk : Bool) (text : String)
       (language : Option String),
      pyStrip text.data ≠ [] →
      (textChat conv detect gemini apiKey ttsOk text language).1 =
        some ⟨get_response gemini apiKey text (textChatResolve language text),
              textChatResolve language text⟩) ∧
    (∀ (conv detect : String → Option String) (gemini : GeminiResult)
       (apiKey : String) (ttsOk : Bool) (whisperOut : Option (String × String))
       (sessionId userText detectedLanguage : String),
      transcribeAudio conv detect whisperOut = some (userText, detectedLanguage) →
      (voiceChat conv detect gemini apiKey ttsOk whisperOut sessionId).1 =
        some ⟨get_response gemini apiKey userText detectedLanguage,
              detectedLanguage⟩) := by
  constructor
  · intro conv detect gemini apiKey ttsOk text language h
    unfold textChat
    rw [if_neg h]
  · intro conv detect gemini apiKey ttsOk whisperOut sessionId userText
      detectedLanguage h
    have hne := transcribe_text_ne_empty conv detect whisperOut userText
      detectedLanguage h
    unfold voiceChat
    rw [h]
    simp only [if_neg hne]

/-- Witness for the amended C3 at concrete inputs. -/
theorem c3_witness :
    (textChat (fun _ => none) (fun _ => none) GeminiResult.raised "key" false
        "hello" (some "ta")).1 =
      some ⟨get_response GeminiResult.raised "key" "hello"
              (textChatResolve (some "ta") "hello"),
            textChatResolve (some "ta") "hello"⟩ ∧
    (voiceChat (fun _ => none) (fun _ => none) GeminiResult.raised "key" false
        (some ("hello", "en")) "sid").1 =
      some ⟨get_response GeminiResult.raised "key" "hello" "en", "en"⟩ :=
  ⟨c3_language_carryover.1 (fun _ => none) (fun _ => none) GeminiResult.raised
      "key" false "hello" (some "ta") (by decide),
   c3_language_carryover.2 (fun _ => none) (fun _ => none) GeminiResult.raised
      "key" false (some ("hello", "en")) "sid" "hello" "en" (by decide)⟩

/-- A successful lookupStr result is one of the association pairs. -/
lemma lookupStr_mem {k s : String} : ∀ {l : List (String × String)},
    lookupStr k l = some s → (k, s) ∈ l := by
  intro l
  induction l with
  | nil =>
    intro h
    cases h
  | cons a t ih =>
    obtain ⟨a1, a2⟩ := a
    intro h
    simp only [lookupStr] at h
    by_cases hk : a1 = k
    · rw [if_pos hk] at h
      injection h with h1
      subst hk
      subst h1
      exact List.mem_cons_self _ _
    · rw [if_neg hk] at h
      exact List.mem_cons_of_mem _ (ih h)

/-- Claim C4, as it holds and fails on the code: in the voice endpoint a
generate_speech failure still yields a successful response carrying the full
response text and a null audio reference; but the text endpoint never
completes successfully at all — it awaits the Bool returned by the
synchronous generate_speech, the resulting TypeError is caught by the blanket
handler, and every request ends in HTTPException(500). -/
theorem c4_synthesis_failure (conv detect : String → Option String)
    (gemini : GeminiResult) (apiKey : String)
    (whisperOut : Option (String × String))
    (sessionId userText detectedLanguage : String)
    (h : transcribeAudio conv detect whisperOut = some (userText, detectedLanguage)) :
    (voiceChat conv detect gemini apiKey false whisperOut sessionId).2 =
      Except.ok ⟨userText, detectedLanguage,
        get_response gemini apiKey userText detectedLanguage,
        detectedLanguage, none⟩ ∧
    (∀ (ttsOk : Bool) (text : String) (language : Option String)
       (ok : TextChatOk),
      (textChat conv detect gemini apiKey ttsOk text language).2 ≠
        Except.ok ok) := by
  constructor
  · have hne := transcribe_text_ne_empty conv detect whisperOut userText
      detectedLanguage h
    unfold voiceChat
    rw [h]
    simp only [if_neg hne]
    rfl
  · intro ttsOk text language ok
    unfold textChat
    split
    · intro hc
      cases hc
    · intro hc
      cases hc

/-- Witness for C4: concrete voice exchange where synthesis fails but the
response completes text-only, and a concrete text exchange that never
completes successfully. -/
theorem c4_witness :
    (voiceChat (fun _ => none) (fun _ => none) GeminiResult.raised "key" false
        (some ("hello", "en")) "sid").2 =
      Except.ok ⟨"hello", "en",
        get_response GeminiResult.raised "key" "hello" "en", "en", none⟩ ∧
    (∀ ok : TextChatOk,
      (textChat (fun _ => none) (fun _ => none) GeminiResult.raised "key"
          false "hello" none).2 ≠ Except.ok ok) :=
  ⟨(c4_synthesis_failure (fun _ => none) (fun _ => none) GeminiResult.raised
      "key" (some ("hello", "en")) "sid" "hello" "en" (by decide)).1,
   fun ok => (c4_synthesis_failure (fun _ => none) (fun _ => none)
      GeminiResult.raised "key" (some ("hello", "en")) "sid" "hello" "en"
      (by decide)).2 false "hello" none ok⟩

/-- Counterexample to claim C5 at an explicit input: "gu" is a supported
language code, yet on generation failure get_response returns the English
fallback message — a pure-ASCII string identical to the "en" entry, not a
message written in Gujarati. -/
theorem c5_counterexample :
    supportedLang "gu" = true ∧
    get_response GeminiResult.raised "key" "hello" "gu" =
      getFallbackResponse "en" ∧
    getFallbackResponse "gu" = getFallbackResponse "en" ∧
    (getFallbackResponse "gu").data.all (fun c => decide (c.toNat ≤ 127))
      = true := by
  refine ⟨by decide, by decide, by decide, by decide⟩

/-- Claim C5 amended: whenever generation fails (missing API key, transport
exception or timeout, non-200 status, or a response with no candidates),
get_response returns the pre-defined fallback for the resolved language —
the entry keyed by L in the fallback table when one exists (the eight codes
en, hi, ta, te, kn, ml, bn, mr), and the English fallback for every other
code, including the supported codes gu, pa, or, as, ur; the result is never
empty and get_response (a total Lean function) never raises. -/
theorem c5_generation_fallback (gemini : GeminiResult)
    (apiKey userInput language : String)
    (h : apiKey = "" ∨ geminiFailed gemini = true) :
    get_response gemini apiKey userInput language =
      getFallbackResponse language ∧
    getFallbackResponse language ≠ "" ∧
    (∀ s, lookupStr language FALLBACKS = some s →
      getFallbackResponse language = s) ∧
    (lookupStr language FALLBACKS = none →
      getFallbackResponse language = getFallbackResponse "en") := by
  refine ⟨?_, ?_, ?_, ?_⟩
  · unfold get_response
    by_cases hk : apiKey = ""
    · rw [if_pos hk]
    · rw [if_neg hk]
      rcases h with h | h
      · exact absurd h hk
      · cases gemini with
        | raised => rfl
        | response status cand =>
          simp only [geminiFailed] at h
          dsimp only
          by_cases hs : status = 200
          · rw [if_pos hs]
            cases cand with
            | none => rfl
            | some t =>
              rw [hs] at h
              simp at h
          · rw [if_neg hs]
  · unfold getFallbackResponse
    cases hl : lookupStr language FALLBACKS with
    | none => decide
    | some s =>
      show s ≠ ""
      have hmem := lookupStr_mem hl
      have hall : ∀ p ∈ FALLBACKS, p.2 ≠ "" := by decide
      exact hall _ hmem
  · intro s hs
    unfold getFallbackResponse
    rw [hs]
  · intro hs
    unfold getFallbackResponse
    rw [hs]
    decide

/-- Witness for the amended C5 at a concrete failing generation. -/
theorem c5_witness :
    get_response GeminiResult.raised "key" "hello" "ta" =
      getFallbackResponse "ta" ∧
    getFallbackResponse "ta" ≠ "" :=
  ⟨(c5_generation_fallback GeminiResult.raised "key" "hello" "ta"
      (Or.inr rfl)).1,
   (c5_generation_fallback GeminiResult.raised "key" "hello" "ta"
      (Or.inr rfl)).2.1⟩

lemma charBetween_le {lo hi : Nat} {c : Char}
    (h : charBetween lo hi c = true) : lo ≤ c.toNat ∧ c.toNat ≤ hi := by
  simp only [charBetween, Bool.and_eq_true, decide_eq_true_eq] at h
  exact h

/-- A character of a high script block survives lowering and stripping: if
the raw text has a character of the block, so does the processed text. -/
lemma any_processed_of_any_raw {lo hi : Nat} (hlo : 256 ≤ lo) (l : List Char)
    (h : l.any (charBetween lo hi) = true) :
    (pyStrip (pyLower l)).any (charBetween lo hi) = true := by
  obtain ⟨c, hc, hcb⟩ := List.any_eq_true.mp h
  have hge : 256 ≤ c.toNat := le_trans hlo (charBetween_le hcb).1
  have hmem : c ∈ pyLower l := by
    unfold pyLower
    exact List.mem_map.mpr ⟨c, hc, toLower_fix_of_ge c hge⟩
  exact List.any_eq_true.mpr
    ⟨c, mem_pyStrip_of_mem hmem (pySpace_eq_false_of_ge c hge), hcb⟩

/-- If all raw characters lie in one high block, so do all processed
characters. -/
lemma all_processed_of_all_raw {lo hi : Nat} (hlo : 256 ≤ lo) (l : List Char)
    (h : l.all (charBetween lo hi) = true) :
    (pyStrip (pyLower l)).all (charBetween lo hi) = true := by
  rw [List.all_eq_true] at h ⊢
  intro c hc
  obtain ⟨c0, hc0, hlow⟩ := mem_pyLower (mem_of_mem_pyStrip hc)
  have hb := h c0 hc0
  have hge : 256 ≤ c0.toNat := le_trans hlo (charBetween_le hb).1
  rw [← hlow, toLower_fix_of_ge c0 hge]
  exact hb

/-- A list inside one block has no character in a disjoint block. -/
lemma any_eq_false_of_all_outside {lo hi lo2 hi2 : Nat} (l : List Char)
    (h : l.all (charBetween lo hi) = true) (hdis : hi < lo2 ∨ hi2 < lo) :
    l.any (charBetween lo2 hi2) = false := by
  rw [List.any_eq_false]
  intro c hc hcb
  have h1 := charBetween_le (List.all_eq_true.mp h c hc)
  have h2 := charBetween_le hcb
  omega

/-- Claim C7: for every text containing at least one Devanagari code point,
detect_language_fast returns "hi" or "mr"; it returns "mr" exactly when the
lowercased, stripped text contains a Marathi marker word and no Hindi marker
word, and "hi" in every other case. -/
theorem c7_devanagari_tiebreak (text : String)
    (h : text.data.any (charBetween 0x0900 0x097F) = true) :
    detect_language_fast text =
      (if MARATHI_MARKERS.any (containsWord (pyStrip (pyLower text.data))) &&
          !(HINDI_MARKERS.any (containsWord (pyStrip (pyLower text.data))))
       then "mr" else "hi") ∧
    (detect_language_fast text = "hi" ∨ detect_language_fast text = "mr") := by
  have hdev := any_processed_of_any_raw (by decide) text.data h
  unfold detect_language_fast detectFromProcessed
  rw [if_pos hdev]
  cases hh : HINDI_MARKERS.any (containsWord (pyStrip (pyLower text.data))) <;>
    cases hm : MARATHI_MARKERS.any (containsWord (pyStrip (pyLower text.data))) <;>
    simp

/-- Witness for C7: Marathi marker with no Hindi marker gives "mr"; plain
Devanagari with no markers gives "hi". -/
theorem c7_witness :
    detect_language_fast "गणपती आहे" = "mr" ∧
    detect_language_fast "नमस्ते" = "hi" := by
  have h1 := c7_devanagari_tiebreak "गणपती आहे" (by decide)
  have h2 := c7_devanagari_tiebreak "नमस्ते" (by decide)
  constructor
  · rw [h1.1]
    decide
  · rw [h2.1]
    decide

/-- Claim C8: when no character of the (lowercased, stripped) text falls in
any recognized script range, detect_language_fast returns the fixed default
"en"; and on the audio path, when additionally the recognizer hint is outside
the supported set and the statistical detector raises or yields a code
outside the supported set, _enhance_language_detection also returns "en". -/
theorem c8_default_fallback :
    (∀ text : String,
      anyScriptChar (pyStrip (pyLower text.data)) = false →
      detect_language_fast text = "en") ∧
    (∀ (conv detect : String → Option String) (text whisperLang : String),
      supportedLang whisperLang = false →
      (∀ l, detect (transliterateIfNeeded conv text) = some l →
        supportedLang l = false) →
      enhanceLanguageDetection conv detect text whisperLang none none
        = "en") := by
  constructor
  · intro text h
    simp only [anyScriptChar, Bool.or_eq_false_iff] at h
    obtain ⟨⟨⟨⟨⟨h1, h2⟩, h3⟩, h4⟩, h5⟩, h6⟩ := h
    unfold detect_language_fast detectFromProcessed
    rw [h1, h2, h3, h4, h5, h6]
    rfl
  · intro conv detect text whisperLang hw hd
    cases hdet : detect (transliterateIfNeeded conv text) with
    | none =>
      unfold enhanceLanguageDetection langdetectStage
      rw [hw, hdet]
      rfl
    | some l =>
      have hl := hd l hdet
      unfold enhanceLanguageDetection langdetectStage
      rw [hw, hdet]
      show (if supportedLang l = true then l else "en") = "en"
      rw [hl]
      rfl

/-- Witness for C8: Latin text resolves to "en"; an unsupported hint with a
raising detector resolves to "en" on the audio path. -/
theorem c8_witness :
    detect_language_fast "hello" = "en" ∧
    enhanceLanguageDetection (fun _ => none) (fun _ => none) "hello" "fr"
      none none = "en" :=
  ⟨c8_default_fallback.1 "hello" (by decide),
   c8_default_fallback.2 (fun _ => none) (fun _ => none) "hello" "fr"
     (by decide) (fun l hl => by cases hl)⟩

/-- A text written entirely in one high script block disjoint from all six
inspected ranges falls through the whole cascade to "en". -/
lemma detect_en_of_all_outside_blocks {lo hi : Nat} (text : String)
    (hlo : 256 ≤ lo)
    (h : text.data.all (charBetween lo hi) = true)
    (h1 : hi < 0x0900 ∨ 0x097F < lo) (h2 : hi < 0x0B80 ∨ 0x0BFF < lo)
    (h3 : hi < 0x0C00 ∨ 0x0C7F < lo) (h4 : hi < 0x0C80 ∨ 0x0CFF < lo)
    (h5 : hi < 0x0D00 ∨ 0x0D7F < lo) (h6 : hi < 0x0980 ∨ 0x09FF < lo) :
    detect_language_fast text = "en" := by
  have hp := all_processed_of_all_raw hlo text.data h
  unfold detect_language_fast detectFromProcessed
  rw [any_eq_false_of_all_outside _ hp h1, any_eq_false_of_all_outside _ hp h2,
      any_eq_false_of_all_outside _ hp h3, any_eq_false_of_all_outside _ hp h4,
      any_eq_false_of_all_outside _ hp h5, any_eq_false_of_all_outside _ hp h6]
  rfl

/-- A non-empty text written entirely in the Bengali block resolves to
"bn". -/
lemma detect_bn_of_all_bengali (text : String) (hne : text.data ≠ [])
    (h : text.data.all (charBetween 0x0980 0x09FF) = true) :
    detect_language_fast text = "bn" := by
  have hp := all_processed_of_all_raw (by decide) text.data h
  obtain ⟨c, hc⟩ := List.exists_mem_of_ne_nil text.data hne
  have hcb := List.all_eq_true.mp h c hc
  have hge : 256 ≤ c.toNat := le_trans (by decide) (charBetween_le hcb).1
  have hmem : c ∈ pyLower text.data := by
    unfold pyLower
    exact List.mem_map.mpr ⟨c, hc, toLower_fix_of_ge c hge⟩
  have hany : (pyStrip (pyLower text.data)).any (charBetween 0x0980 0x09FF)
      = true :=
    List.any_eq_true.mpr
      ⟨c, mem_pyStrip_of_mem hmem (pySpace_eq_false_of_ge c hge), hcb⟩
  unfold detect_language_fast detectFromProcessed
  rw [any_eq_false_of_all_outside _ hp (by decide),
      any_eq_false_of_all_outside _ hp (by decide),
      any_eq_false_of_all_outside _ hp (by decide),
      any_eq_false_of_all_outside _ hp (by decide),
      any_eq_false_of_all_outside _ hp (by decide), hany]
  rfl

/-- Claim C10: detect_language_fast can only ever return one of the eight
codes hi, mr, ta, te, kn, ml, bn, en; text written entirely in the Gujarati
(U+0A80 to U+0AFF), Gurmukhi (U+0A00 to U+0A7F), Odia (U+0B00 to U+0B7F) or
Arabic (U+0600 to U+06FF) blocks — the native scripts of the supported
languages gu, pa, or, ur — resolves to "en", Assamese-script text (Bengali
block) resolves to "bn", and generate_speech, given a code absent from the
static voice mapping such as "or" or "as", substitutes the default "en"
voice instead of failing. -/
theorem c10_detector_range_and_voice_fallback :
    (∀ text : String, detect_language_fast text ∈
      (["hi", "mr", "ta", "te", "kn", "ml", "bn", "en"] : List String)) ∧
    (∀ text : String, text.data.all (charBetween 0x0A80 0x0AFF) = true →
      detect_language_fast text = "en") ∧
    (∀ text : String, text.data.all (charBetween 0x0A00 0x0A7F) = true →
      detect_language_fast text = "en") ∧
    (∀ text : String, text.data.all (charBetween 0x0B00 0x0B7F) = true →
      detect_language_fast text = "en") ∧
    (∀ text : String, text.data.all (charBetween 0x0600 0x06FF) = true →
      detect_language_fast text = "en") ∧
    (∀ text : String, text.data ≠ [] →
      text.data.all (charBetween 0x0980 0x09FF) = true →
      detect_language_fast text = "bn") ∧
    (∀ language : String, lookupStr language language_mapping = none →
      ttsResolvedCode language = "en" ∧ ttsLang language = "en") := by
  refine ⟨detect_fast_mem, ?_, ?_, ?_, ?_, detect_bn_of_all_bengali, ?_⟩
  · intro text h
    exact detect_en_of_all_outside_blocks text (by decide) h (by decide)
      (by decide) (by decide) (by decide) (by decide) (by decide)
  · intro text h
    exact detect_en_of_all_outside_blocks text (by decide) h (by decide)
      (by decide) (by decide) (by decide) (by decide) (by decide)
  · intro text h
    exact detect_en_of_all_outside_blocks text (by decide) h (by decide)
      (by decide) (by decide) (by decide) (by decide) (by decide)
  · intro text h
    exact detect_en_of_all_outside_blocks text (by decide) h (by decide)
      (by decide) (by decide) (by decide) (by decide) (by decide)
  · intro language h
    have h1 : ttsResolvedCode language = "en" := by
      unfold ttsResolvedCode
      rw [h]
      rfl
    refine ⟨h1, ?_⟩
    unfold ttsLang
    rw [h1]
    decide

/-- Witness for C10: Gujarati, Gurmukhi, Odia and Arabic texts resolve to
"en", an Assamese (Bengali-block) text resolves to "bn", and the unmapped
voice codes "or" and "as" fall back to the "en" voice. -/
theorem c10_witness :
    detect_language_fast "ગણેશ" = "en" ∧
    detect_language_fast "ਸਤ" = "en" ∧
    detect_language_fast "ଗଣ" = "en" ∧
    detect_language_fast "سلام" = "en" ∧
    detect_language_fast "অসম" = "bn" ∧
    ttsLang "or" = "en" ∧
    ttsLang "as" = "en" :=
  ⟨c10_detector_range_and_voice_fallback.2.1 "ગણેશ" (by decide),
   c10_detector_range_and_voice_fallback.2.2.1 "ਸਤ" (by decide),
   c10_detector_range_and_voice_fallback.2.2.2.1 "ଗଣ" (by decide),
   c10_detector_range_and_voice_fallback.2.2.2.2.1 "سلام" (by decide),
   c10_detector_range_and_voice_fallback.2.2.2.2.2.1 "অসম" (by decide)
     (by decide),
   (c10_detector_range_and_voice_fallback.2.2.2.2.2.2 "or" (by decide)).2,
   (c10_detector_range_and_voice_fallback.2.2.2.2.2.2 "as" (by decide)).2⟩
